import Mathlib

/-!
Verification of the tax-bracket and deduction logic of `src/tax.py`.

Monetary amounts are modelled as rationals (`ℚ`).  The unbounded upper
bound of the last bracket (`float('inf')` in the source) is modelled as
`Option ℚ` with `none` standing for positive infinity.
-/

/-- A row of the `tax_brackets` table in `calculate_tax_bracket`
(`src/tax.py:33-41`): `(min_income, max_income, rate, base_tax)`. -/
structure TaxBracket where
  lo : ℚ
  hi : Option ℚ
  rate : ℚ
  base : ℚ
deriving DecidableEq

/-- The upper-bound test `income <= max_income`, where `none` is
`float('inf')` (every rational is below it). -/
def withinUpper (x : ℚ) : Option ℚ → Prop
  | none => True
  | some m => x ≤ m

instance (x : ℚ) : (o : Option ℚ) → Decidable (withinUpper x o)
  | none => isTrue trivial
  | some m => inferInstanceAs (Decidable (x ≤ m))

/-- The loop guard `min_income <= income <= max_income` of
`src/tax.py:44`. -/
def TaxBracket.contains (b : TaxBracket) (x : ℚ) : Prop :=
  b.lo ≤ x ∧ withinUpper x b.hi

instance (b : TaxBracket) (x : ℚ) : Decidable (b.contains x) :=
  inferInstanceAs (Decidable (b.lo ≤ x ∧ withinUpper x b.hi))

/-- The hardcoded bracket table of `src/tax.py:33-41`. -/
def tax_brackets : List TaxBracket :=
  [⟨1, some 237100, 0.18, 0⟩,
   ⟨237101, some 370500, 0.26, 42678⟩,
   ⟨370501, some 512800, 0.31, 77362⟩,
   ⟨512801, some 673000, 0.36, 121475⟩,
   ⟨673001, some 857900, 0.39, 179147⟩,
   ⟨857901, some 1817000, 0.41, 251258⟩,
   ⟨1817001, none, 0.45, 644489⟩]

/-- The `for`-loop of `src/tax.py:43-47`: return the first bracket whose
closed interval contains the income, with tax
`base_tax + (income - min_income + 1) * rate`, else `(0, 0)`. -/
def taxLoop (x : ℚ) : List TaxBracket → ℚ × ℚ
  | [] => (0, 0)
  | b :: rest =>
    if b.contains x then (b.base + (x - b.lo + 1) * b.rate, b.rate)
    else taxLoop x rest

/-- Embedding of `calculate_tax_bracket` (`src/tax.py:31-47`): returns the pair
`(tax, rate)`. -/
def calculate_tax_bracket (income : ℚ) : ℚ × ℚ :=
  taxLoop income tax_brackets

/-- The user record read with `.get(key, 0)` in `main`
(`src/tax.py:303,309-314`): each field may be absent. -/
structure UserData where
  gross_income : Option ℚ
  retirement_contributions : Option ℚ
  medical_aid_contributions : Option ℚ
  work_from_home : Option ℚ
  professional_fees : Option ℚ
deriving DecidableEq

/-- Embedding of `total_deductions` of the Tax Calculator page (`src/tax.py:309-314`):
the raw sum of the four stored deduction fields, each defaulting to 0. -/
def total_deductions (ud : UserData) : ℚ :=
  ud.retirement_contributions.getD 0 +
  ud.medical_aid_contributions.getD 0 +
  ud.work_from_home.getD 0 +
  ud.professional_fees.getD 0

/-- Embedding of `taxable_income = max(0, gross_income - total_deductions)`
(`src/tax.py:325`). -/
def taxable_income (ud : UserData) : ℚ :=
  max 0 (ud.gross_income.getD 0 - total_deductions ud)

/-- Embedding of `final_tax = max(0, calculate_tax_bracket(taxable_income)[0])`
(`src/tax.py:327`). -/
def final_tax (ud : UserData) : ℚ :=
  max 0 (calculate_tax_bracket (taxable_income ud)).1

/-- Embedding of `retirement_limit` of the Deductions Overview page
(`src/tax.py:458-462`): `min(contributions, gross_income * 0.275, 350000)`. -/
def retirement_limit (r g : ℚ) : ℚ :=
  min (min r (g * 0.275)) 350000

/-- Embedding of `medical_credit` of the Deductions Overview page (`src/tax.py:464`):
`medical_aid_contributions * 12 * 0.25`. -/
def medical_credit (m : ℚ) : ℚ :=
  m * 12 * 0.25

/-- Bool form of bracket membership, for closed decidable statements. -/
def containsDec (b : TaxBracket) (x : ℚ) : Bool :=
  decide (b.contains x)

/-- A stored profile with gross income 50000 whose deduction fields sum
to 80000 (the spec's concrete scenario 4). -/
def ud_cex : UserData :=
  ⟨some 50000, some 60000, some 10000, some 6000, some 4000⟩

/-- Relation between consecutive rows of the bracket table: the earlier
row has a finite upper bound `m`, the next row starts at `m + 1`, its
rate is strictly larger, and its base tax is the cumulative tax at the
end of the earlier row. -/
def bracketStep (a b : TaxBracket) : Prop :=
  ∃ m, a.hi = some m ∧ b.lo = m + 1 ∧ a.rate < b.rate ∧
    b.base = a.base + (m - a.lo + 1) * a.rate

/-- Bounds extracted from membership in a bracket with a finite upper bound. -/
lemma contains_bounds {lo m rate base x : ℚ}
    (h : (⟨lo, some m, rate, base⟩ : TaxBracket).contains x) : lo ≤ x ∧ x ≤ m := h

/-- Bound extracted from membership in the unbounded top bracket. -/
lemma contains_top {lo rate base x : ℚ}
    (h : (⟨lo, none, rate, base⟩ : TaxBracket).contains x) : lo ≤ x := h.1

/-- Evaluation of `calculate_tax_bracket` inside bracket 1. -/
lemma tax_in_b1 (x : ℚ) (h1 : 1 ≤ x) (h2 : x ≤ 237100) :
    calculate_tax_bracket x = (0 + (x - 1 + 1) * 0.18, 0.18) := by
  simp only [calculate_tax_bracket, tax_brackets, taxLoop]
  split_ifs with g1 g2 g3 g4 g5 g6 g7 <;>
    first
      | (exact (g1 ⟨h1, h2⟩).elim)
      | norm_num

/-- Evaluation of `calculate_tax_bracket` inside bracket 2. -/
lemma tax_in_b2 (x : ℚ) (h1 : 237101 ≤ x) (h2 : x ≤ 370500) :
    calculate_tax_bracket x = (42678 + (x - 237101 + 1) * 0.26, 0.26) := by
  simp only [calculate_tax_bracket, tax_brackets, taxLoop]
  split_ifs with g1 g2 g3 g4 g5 g6 g7 <;>
    first
      | (exact (g2 ⟨h1, h2⟩).elim)
      | (obtain ⟨ga, gb⟩ := contains_bounds g1; exact absurd gb (by linarith))
      | norm_num

/-- Evaluation of `calculate_tax_bracket` inside bracket 3. -/
lemma tax_in_b3 (x : ℚ) (h1 : 370501 ≤ x) (h2 : x ≤ 512800) :
    calculate_tax_bracket x = (77362 + (x - 370501 + 1) * 0.31, 0.31) := by
  simp only [calculate_tax_bracket, tax_brackets, taxLoop]
  split_ifs with g1 g2 g3 g4 g5 g6 g7 <;>
    first
      | (exact (g3 ⟨h1, h2⟩).elim)
      | (obtain ⟨ga, gb⟩ := contains_bounds g1; exact absurd gb (by linarith))
      | (obtain ⟨ga, gb⟩ := contains_bounds g2; exact absurd gb (by linarith))
      | norm_num

/-- Evaluation of `calculate_tax_bracket` inside bracket 4. -/
lemma tax_in_b4 (x : ℚ) (h1 : 512801 ≤ x) (h2 : x ≤ 673000) :
    calculate_tax_bracket x = (121475 + (x - 512801 + 1) * 0.36, 0.36) := by
  simp only [calculate_tax_bracket, tax_brackets, taxLoop]
  split_ifs with g1 g2 g3 g4 g5 g6 g7 <;>
    first
      | (exact (g4 ⟨h1, h2⟩).elim)
      | (obtain ⟨ga, gb⟩ := contains_bounds g1; exact absurd gb (by linarith))
      | (obtain ⟨ga, gb⟩ := contains_bounds g2; exact absurd gb (by linarith))
      | (obtain ⟨ga, gb⟩ := contains_bounds g3; exact absurd gb (by linarith))
      | norm_num

/-- Evaluation of `calculate_tax_bracket` inside bracket 5. -/
lemma tax_in_b5 (x : ℚ) (h1 : 673001 ≤ x) (h2 : x ≤ 857900) :
    calculate_tax_bracket x = (179147 + (x - 673001 + 1) * 0.39, 0.39) := by
  simp only [calculate_tax_bracket, tax_brackets, taxLoop]
  split_ifs with g1 g2 g3 g4 g5 g6 g7 <;>
    first
      | (exact (g5 ⟨h1, h2⟩).elim)
      | (obtain ⟨ga, gb⟩ := contains_bounds g1; exact absurd gb (by linarith))
      | (obtain ⟨ga, gb⟩ := contains_bounds g2; exact absurd gb (by linarith))
      | (obtain ⟨ga, gb⟩ := contains_bounds g3; exact absurd gb (by linarith))
      | (obtain ⟨ga, gb⟩ := contains_bounds g4; exact absurd gb (by linarith))
      | norm_num

/-- Evaluation of `calculate_tax_bracket` inside bracket 6. -/
lemma tax_in_b6 (x : ℚ) (h1 : 857901 ≤ x) (h2 : x ≤ 1817000) :
    calculate_tax_bracket x = (251258 + (x - 857901 + 1) * 0.41, 0.41) := by
  simp only [calculate_tax_bracket, tax_brackets, taxLoop]
  split_ifs with g1 g2 g3 g4 g5 g6 g7 <;>
    first
      | (exact (g6 ⟨h1, h2⟩).elim)
      | (obtain ⟨ga, gb⟩ := contains_bounds g1; exact absurd gb (by linarith))
      | (obtain ⟨ga, gb⟩ := contains_bounds g2; exact absurd gb (by linarith))
      | (obtain ⟨ga, gb⟩ := contains_bounds g3; exact absurd gb (by linarith))
      | (obtain ⟨ga, gb⟩ := contains_bounds g4; exact absurd gb (by linarith))
      | (obtain ⟨ga, gb⟩ := contains_bounds g5; exact absurd gb (by linarith))
      | norm_num

/-- Evaluation of `calculate_tax_bracket` inside the unbounded top bracket. -/
lemma tax_in_b7 (x : ℚ) (h1 : 1817001 ≤ x) :
    calculate_tax_bracket x = (644489 + (x - 1817001 + 1) * 0.45, 0.45) := by
  simp only [calculate_tax_bracket, tax_brackets, taxLoop]
  split_ifs with g1 g2 g3 g4 g5 g6 g7 <;>
    first
      | (exact (g7 ⟨h1, trivial⟩).elim)
      | (obtain ⟨ga, gb⟩ := contains_bounds g1; exact absurd gb (by linarith))
      | (obtain ⟨ga, gb⟩ := contains_bounds g2; exact absurd gb (by linarith))
      | (obtain ⟨ga, gb⟩ := contains_bounds g3; exact absurd gb (by linarith))
      | (obtain ⟨ga, gb⟩ := contains_bounds g4; exact absurd gb (by linarith))
      | (obtain ⟨ga, gb⟩ := contains_bounds g5; exact absurd gb (by linarith))
      | (obtain ⟨ga, gb⟩ := contains_bounds g6; exact absurd gb (by linarith))
      | norm_num

/-- When no bracket contains the income the loop falls through to `(0, 0)`. -/
lemma tax_nomatch (x : ℚ) (h : ∀ b ∈ tax_brackets, ¬ b.contains x) :
    calculate_tax_bracket x = (0, 0) := by
  simp only [calculate_tax_bracket, tax_brackets, taxLoop]
  rw [if_neg (h _ (by simp [tax_brackets])), if_neg (h _ (by simp [tax_brackets])),
    if_neg (h _ (by simp [tax_brackets])), if_neg (h _ (by simp [tax_brackets])),
    if_neg (h _ (by simp [tax_brackets])), if_neg (h _ (by simp [tax_brackets])),
    if_neg (h _ (by simp [tax_brackets]))]

/-- Multiplying a larger in-bracket amount by a non-negative rate gives a
larger tax. -/
lemma step_le {x lo r base : ℚ} (hr : 0 ≤ r) :
    base + (x - lo + 1) * r ≤ base + (x + 1 - lo + 1) * r := by
  have h := mul_le_mul_of_nonneg_right
    (by linarith : x - lo + 1 ≤ x + 1 - lo + 1) hr
  linarith

/-- C1: for every non-negative income, if some bracket of the table
contains the income then `calculate_tax_bracket` returns
`base_tax + (income - min_income + 1) * rate` and that bracket's rate,
and if no bracket contains it the function returns `(0, 0)`. -/
theorem tax_matches_spec_reference (income : ℚ) (h0 : 0 ≤ income) :
    (∀ b ∈ tax_brackets, b.contains income →
      calculate_tax_bracket income =
        (b.base + (income - b.lo + 1) * b.rate, b.rate)) ∧
    ((∀ b ∈ tax_brackets, ¬ b.contains income) →
      calculate_tax_bracket income = (0, 0)) := by
  refine ⟨?_, tax_nomatch income⟩
  intro b hb hc
  simp only [tax_brackets, List.mem_cons, List.not_mem_nil, or_false] at hb
  rcases hb with rfl | rfl | rfl | rfl | rfl | rfl | rfl
  · obtain ⟨ga, gb⟩ := contains_bounds hc
    exact tax_in_b1 income ga gb
  · obtain ⟨ga, gb⟩ := contains_bounds hc
    exact tax_in_b2 income ga gb
  · obtain ⟨ga, gb⟩ := contains_bounds hc
    exact tax_in_b3 income ga gb
  · obtain ⟨ga, gb⟩ := contains_bounds hc
    exact tax_in_b4 income ga gb
  · obtain ⟨ga, gb⟩ := contains_bounds hc
    exact tax_in_b5 income ga gb
  · obtain ⟨ga, gb⟩ := contains_bounds hc
    exact tax_in_b6 income ga gb
  · exact tax_in_b7 income (contains_top hc)

/-- Witness for C1: the first bracket contains 100000 and the returned
pair is the bracket formula there. -/
theorem tax_matches_spec_reference_witness :
    calculate_tax_bracket 100000 = (0 + ((100000 : ℚ) - 1 + 1) * 0.18, 0.18) :=
  (tax_matches_spec_reference 100000 (by norm_num)).1
    ⟨1, some 237100, 0.18, 0⟩ (by simp [tax_brackets])
    ⟨by norm_num, show (100000 : ℚ) ≤ 237100 by norm_num⟩

/-- C2 counterexample: on income 300000 the code returns a tax of 59032,
not the 59058.26 stated by the spec scenario. -/
theorem scenario_one_tax_cex : (calculate_tax_bracket 300000).1 ≠ 59058.26 := by
  rw [tax_in_b2 300000 (by norm_num) (by norm_num)]
  norm_num

/-- C2 amended: `calculate_tax_bracket 300000 = (59032, 0.26)` (since
`42678 + (300000 - 237101 + 1) * 0.26 = 42678 + 16354 = 59032`) and
`calculate_tax_bracket 100000 = (18000, 0.18)`. -/
theorem scenario_tax_values :
    calculate_tax_bracket 300000 = (59032, 0.26) ∧
    calculate_tax_bracket 100000 = (18000, 0.18) := by
  constructor
  · rw [tax_in_b2 300000 (by norm_num) (by norm_num)]
    norm_num
  · rw [tax_in_b1 100000 (by norm_num) (by norm_num)]
    norm_num

/-- C9: for every non-negative income the tax returned by
`calculate_tax_bracket` is non-negative (and indeed the code applies no
flooring: each branch is non-negative by construction). -/
theorem tax_nonneg (income : ℚ) (h0 : 0 ≤ income) :
    0 ≤ (calculate_tax_bracket income).1 := by
  simp only [calculate_tax_bracket, tax_brackets, taxLoop]
  split_ifs with g1 g2 g3 g4 g5 g6 g7
  · obtain ⟨ga, gb⟩ := contains_bounds g1
    show (0:ℚ) ≤ 0 + (income - 1 + 1) * 0.18
    exact add_nonneg (by norm_num) (mul_nonneg (by linarith) (by norm_num))
  · obtain ⟨ga, gb⟩ := contains_bounds g2
    show (0:ℚ) ≤ 42678 + (income - 237101 + 1) * 0.26
    exact add_nonneg (by norm_num) (mul_nonneg (by linarith) (by norm_num))
  · obtain ⟨ga, gb⟩ := contains_bounds g3
    show (0:ℚ) ≤ 77362 + (income - 370501 + 1) * 0.31
    exact add_nonneg (by norm_num) (mul_nonneg (by linarith) (by norm_num))
  · obtain ⟨ga, gb⟩ := contains_bounds g4
    show (0:ℚ) ≤ 121475 + (income - 512801 + 1) * 0.36
    exact add_nonneg (by norm_num) (mul_nonneg (by linarith) (by norm_num))
  · obtain ⟨ga, gb⟩ := contains_bounds g5
    show (0:ℚ) ≤ 179147 + (income - 673001 + 1) * 0.39
    exact add_nonneg (by norm_num) (mul_nonneg (by linarith) (by norm_num))
  · obtain ⟨ga, gb⟩ := contains_bounds g6
    show (0:ℚ) ≤ 251258 + (income - 857901 + 1) * 0.41
    exact add_nonneg (by norm_num) (mul_nonneg (by linarith) (by norm_num))
  · have ga := contains_top g7
    show (0:ℚ) ≤ 644489 + (income - 1817001 + 1) * 0.45
    exact add_nonneg (by norm_num) (mul_nonneg (by linarith) (by norm_num))
  · norm_num

/-- Witness for C9 at income 300000. -/
theorem tax_nonneg_witness : 0 ≤ (calculate_tax_bracket 300000).1 :=
  tax_nonneg 300000 (by norm_num)

/-- Adding one unit of income never decreases the tax, for natural-number
incomes (which never fall in the one-unit gaps between brackets). -/
lemma tax_succ_nat (n : ℕ) :
    (calculate_tax_bracket (n : ℚ)).1 ≤ (calculate_tax_bracket ((n : ℚ) + 1)).1 := by
  rcases Nat.lt_or_ge n 1 with h | h
  · have hn0 : n = 0 := by omega
    subst hn0
    rw [show ((0:ℕ):ℚ) = 0 from by norm_num, tax_nomatch 0 (by decide),
      show (0:ℚ) + 1 = 1 from by norm_num, tax_in_b1 1 (by norm_num) (by norm_num)]
    norm_num
  rcases Nat.lt_or_ge n 237100 with h2 | h2
  · have b1 : (1:ℚ) ≤ (n:ℚ) := by exact_mod_cast h
    have b2 : (n:ℚ) ≤ 237099 := by exact_mod_cast (by omega : n ≤ 237099)
    rw [tax_in_b1 (n:ℚ) b1 (by linarith), tax_in_b1 ((n:ℚ)+1) (by linarith) (by linarith)]
    exact step_le (by norm_num)
  rcases Nat.lt_or_ge n 237101 with h3 | h3
  · have hq : (n:ℚ) = 237100 := by exact_mod_cast (by omega : n = 237100)
    rw [hq, tax_in_b1 237100 (by norm_num) (by norm_num),
      show (237100:ℚ) + 1 = 237101 from by norm_num,
      tax_in_b2 237101 (by norm_num) (by norm_num)]
    norm_num
  rcases Nat.lt_or_ge n 370500 with h4 | h4
  · have b1 : (237101:ℚ) ≤ (n:ℚ) := by exact_mod_cast h3
    have b2 : (n:ℚ) ≤ 370499 := by exact_mod_cast (by omega : n ≤ 370499)
    rw [tax_in_b2 (n:ℚ) b1 (by linarith), tax_in_b2 ((n:ℚ)+1) (by linarith) (by linarith)]
    exact step_le (by norm_num)
  rcases Nat.lt_or_ge n 370501 with h5 | h5
  · have hq : (n:ℚ) = 370500 := by exact_mod_cast (by omega : n = 370500)
    rw [hq, tax_in_b2 370500 (by norm_num) (by norm_num),
      show (370500:ℚ) + 1 = 370501 from by norm_num,
      tax_in_b3 370501 (by norm_num) (by norm_num)]
    norm_num
  rcases Nat.lt_or_ge n 512800 with h6 | h6
  · have b1 : (370501:ℚ) ≤ (n:ℚ) := by exact_mod_cast h5
    have b2 : (n:ℚ) ≤ 512799 := by exact_mod_cast (by omega : n ≤ 512799)
    rw [tax_in_b3 (n:ℚ) b1 (by linarith), tax_in_b3 ((n:ℚ)+1) (by linarith) (by linarith)]
    exact step_le (by norm_num)
  rcases Nat.lt_or_ge n 512801 with h7 | h7
  · have hq : (n:ℚ) = 512800 := by exact_mod_cast (by omega : n = 512800)
    rw [hq, tax_in_b3 512800 (by norm_num) (by norm_num),
      show (512800:ℚ) + 1 = 512801 from by norm_num,
      tax_in_b4 512801 (by norm_num) (by norm_num)]
    norm_num
  rcases Nat.lt_or_ge n 673000 with h8 | h8
  · have b1 : (512801:ℚ) ≤ (n:ℚ) := by exact_mod_cast h7
    have b2 : (n:ℚ) ≤ 672999 := by exact_mod_cast (by omega : n ≤ 672999)
    rw [tax_in_b4 (n:ℚ) b1 (by linarith), tax_in_b4 ((n:ℚ)+1) (by linarith) (by linarith)]
    exact step_le (by norm_num)
  rcases Nat.lt_or_ge n 673001 with h9 | h9
  · have hq : (n:ℚ) = 673000 := by exact_mod_cast (by omega : n = 673000)
    rw [hq, tax_in_b4 673000 (by norm_num) (by norm_num),
      show (673000:ℚ) + 1 = 673001 from by norm_num,
      tax_in_b5 673001 (by norm_num) (by norm_num)]
    norm_num
  rcases Nat.lt_or_ge n 857900 with h10 | h10
  · have b1 : (673001:ℚ) ≤ (n:ℚ) := by exact_mod_cast h9
    have b2 : (n:ℚ) ≤ 857899 := by exact_mod_cast (by omega : n ≤ 857899)
    rw [tax_in_b5 (n:ℚ) b1 (by linarith), tax_in_b5 ((n:ℚ)+1) (by linarith) (by linarith)]
    exact step_le (by norm_num)
  rcases Nat.lt_or_ge n 857901 with h11 | h11
  · have hq : (n:ℚ) = 857900 := by exact_mod_cast (by omega : n = 857900)
    rw [hq, tax_in_b5 857900 (by norm_num) (by norm_num),
      show (857900:ℚ) + 1 = 857901 from by norm_num,
      tax_in_b6 857901 (by norm_num) (by norm_num)]
    norm_num
  rcases Nat.lt_or_ge n 1817000 with h12 | h12
  · have b1 : (857901:ℚ) ≤ (n:ℚ) := by exact_mod_cast h11
    have b2 : (n:ℚ) ≤ 1816999 := by exact_mod_cast (by omega : n ≤ 1816999)
    rw [tax_in_b6 (n:ℚ) b1 (by linarith), tax_in_b6 ((n:ℚ)+1) (by linarith) (by linarith)]
    exact step_le (by norm_num)
  rcases Nat.lt_or_ge n 1817001 with h13 | h13
  · have hq : (n:ℚ) = 1817000 := by exact_mod_cast (by omega : n = 1817000)
    rw [hq, tax_in_b6 1817000 (by norm_num) (by norm_num),
      show (1817000:ℚ) + 1 = 1817001 from by norm_num,
      tax_in_b7 1817001 (by norm_num)]
    norm_num
  · have b1 : (1817001:ℚ) ≤ (n:ℚ) := by exact_mod_cast h13
    rw [tax_in_b7 (n:ℚ) b1, tax_in_b7 ((n:ℚ)+1) (by linarith)]
    exact step_le (by norm_num)

/-- C3 counterexample: the incomes 100 and 237100.5 are both non-negative
with 100 ≤ 237100.5, but the tax at 100 is 18 while the tax at 237100.5
(which falls in the open gap between brackets 1 and 2) is 0. -/
theorem tax_monotone_cex :
    (0:ℚ) ≤ 100 ∧ (100:ℚ) ≤ 474201 / 2 ∧
    ¬ (calculate_tax_bracket 100).1 ≤ (calculate_tax_bracket (474201 / 2)).1 := by
  refine ⟨by norm_num, by norm_num, ?_⟩
  rw [tax_in_b1 100 (by norm_num) (by norm_num), tax_nomatch (474201 / 2) ?_]
  · norm_num
  · intro b hb
    simp only [tax_brackets, List.mem_cons, List.not_mem_nil, or_false] at hb
    rcases hb with rfl | rfl | rfl | rfl | rfl | rfl | rfl <;>
      simp only [TaxBracket.contains, withinUpper] <;> norm_num

/-- C3 amended: restricted to integer incomes (the unit grid on which the
bracket table has no gaps), `calculate_tax_bracket` is monotonically
non-decreasing. -/
theorem tax_monotone_on_naturals (m n : ℕ) (hmn : m ≤ n) :
    (calculate_tax_bracket (m : ℚ)).1 ≤ (calculate_tax_bracket (n : ℚ)).1 := by
  induction hmn with
  | refl => exact le_rfl
  | step h ih =>
    push_cast
    push_cast at ih
    exact le_trans ih (tax_succ_nat _)

/-- Witness for C3 at the pair (100000, 300000). -/
theorem tax_monotone_on_naturals_witness :
    (calculate_tax_bracket ((100000 : ℕ) : ℚ)).1 ≤
      (calculate_tax_bracket ((300000 : ℕ) : ℚ)).1 :=
  tax_monotone_on_naturals 100000 300000 (by norm_num)

/-- C4 counterexample: for a contribution of 100 the code computes a
medical credit of 300, not 0.25 × 100 = 25. -/
theorem medical_credit_cex : medical_credit 100 ≠ 0.25 * 100 := by
  norm_num [medical_credit]

/-- C4 amended: the medical credit is `0.25 × (12 × contributions)` for
every non-negative contribution input — the ×12 annualization is applied
unconditionally, with no configuration flag. -/
theorem medical_credit_times_twelve (m : ℚ) (hm : 0 ≤ m) :
    medical_credit m = 0.25 * (12 * m) := by
  simp only [medical_credit]
  ring

/-- Witness for C4 at a contribution of 100. -/
theorem medical_credit_times_twelve_witness :
    medical_credit 100 = 0.25 * (12 * 100) :=
  medical_credit_times_twelve 100 (by norm_num)

/-- C5 counterexample: a profile with gross income 50000 and deduction
fields summing to 80000; the total used by the tax computation is the
raw 80000 and exceeds gross income. -/
theorem deductions_cap_cex :
    ud_cex.gross_income.getD 0 = 50000 ∧ total_deductions ud_cex = 80000 ∧
    ¬ total_deductions ud_cex ≤ ud_cex.gross_income.getD 0 := by
  refine ⟨rfl, by norm_num [total_deductions, ud_cex], ?_⟩
  norm_num [total_deductions, ud_cex]

/-- C5 amended: the grand total of deductions used by the tax computation
is the raw, uncapped sum of the four stored deduction fields (it is never
min-capped at gross income and may exceed it); the excess is absorbed
downstream, where taxable income is clamped at zero. -/
theorem deductions_uncapped_sum (ud : UserData) :
    total_deductions ud =
      ud.retirement_contributions.getD 0 + ud.medical_aid_contributions.getD 0 +
      ud.work_from_home.getD 0 + ud.professional_fees.getD 0 ∧
    0 ≤ taxable_income ud :=
  ⟨rfl, le_max_left 0 _⟩

/-- C6 counterexample: a negative income is not rejected; the code
computes and returns the pair `(0, 0)`. -/
theorem negative_income_cex : calculate_tax_bracket (-5) = (0, 0) := by
  decide

/-- C6 amended: negative income produces no error — no bracket matches,
so `calculate_tax_bracket` falls through and returns the computed pair
`(0, 0)`; the deduction sums likewise process whatever values are given
(only the UI widgets restrict inputs to be non-negative). -/
theorem negative_income_returns_zero (income : ℚ) (h : income < 0) :
    calculate_tax_bracket income = (0, 0) := by
  apply tax_nomatch
  intro b hb
  simp only [tax_brackets, List.mem_cons, List.not_mem_nil, or_false] at hb
  rcases hb with rfl | rfl | rfl | rfl | rfl | rfl | rfl <;>
    simp only [TaxBracket.contains, withinUpper] <;> rintro ⟨ga, -⟩ <;> linarith

/-- Witness for C6 at income −7. -/
theorem negative_income_returns_zero_witness :
    calculate_tax_bracket (-7) = (0, 0) :=
  negative_income_returns_zero (-7) (by norm_num)

/-- C7: the retirement deduction equals
`min(contributions, 0.275 × grossIncome, 350000)`, and on the concrete
scenario `contributions = 400000, grossIncome = 1000000` it is 275000. -/
theorem retirement_cap_formula (r g : ℚ) (hr : 0 ≤ r) (hg : 0 ≤ g) :
    retirement_limit r g = min r (min (0.275 * g) 350000) ∧
    retirement_limit 400000 1000000 = 275000 := by
  constructor
  · simp only [retirement_limit, min_assoc, mul_comm]
  · simp only [retirement_limit]
    norm_num [min_def]

/-- Witness for C7 at the scenario inputs. -/
theorem retirement_cap_formula_witness :
    retirement_limit 400000 1000000 =
      min 400000 (min ((0.275 : ℚ) * 1000000) 350000) ∧
    retirement_limit 400000 1000000 = 275000 :=
  retirement_cap_formula 400000 1000000 (by norm_num) (by norm_num)

/-- C10: taxable income is `max(0, gross - deductions)` and final tax is
`max(0, tax(taxable))`, so whenever deductions exceed gross income both
are exactly 0. -/
theorem clamped_taxable_income (ud : UserData)
    (h : ud.gross_income.getD 0 < total_deductions ud) :
    taxable_income ud = 0 ∧ final_tax ud = 0 := by
  have ht : taxable_income ud = 0 := by
    simp only [taxable_income]
    exact max_eq_left (by linarith)
  refine ⟨ht, ?_⟩
  simp only [final_tax, ht]
  rw [tax_nomatch 0 (by decide)]
  norm_num

/-- Witness for C10 on the stored profile with gross 50000 and
deductions 80000. -/
theorem clamped_taxable_income_witness :
    taxable_income ud_cex = 0 ∧ final_tax ud_cex = 0 :=
  clamped_taxable_income ud_cex (by norm_num [total_deductions, ud_cex])

/-- C8 counterexample: 0.5 is a non-negative real yet lies in no bracket
of the table, so the bracket bounds do not partition the non-negative
real line. -/
theorem bracket_partition_cex :
    (0:ℚ) ≤ 1 / 2 ∧ tax_brackets.all (fun b => ! containsDec b (1 / 2)) = true := by
  constructor
  · norm_num
  · simp only [tax_brackets, containsDec, TaxBracket.contains, withinUpper,
      List.all_cons, List.all_nil, Bool.and_true, Bool.and_eq_true,
      Bool.not_eq_eq_eq_not, Bool.not_true, decide_eq_false_iff_not]
    norm_num

/-- C8 amended: the bracket table satisfies the configuration invariant
on its own unit grid — each consecutive pair of rows is adjacent
(`lowerBound` of the next row is the previous `upperBound` plus one) with
strictly increasing rates and with the next `baseTaxAtLowerBound` equal
to the cumulative tax at the end of the previous row; the first row
starts at 1 with base tax 0; every integer income ≥ 1 is contained in
some bracket; and no income at all lies in two distinct brackets. -/
theorem bracket_table_invariants (n : ℕ) (hn : 1 ≤ n) :
    List.Chain' bracketStep tax_brackets ∧
    (∃ b0, tax_brackets.head? = some b0 ∧ b0.lo = 1 ∧ b0.base = 0) ∧
    (∃ b ∈ tax_brackets, b.contains (n : ℚ)) ∧
    (∀ x : ℚ, ∀ b ∈ tax_brackets, ∀ c ∈ tax_brackets,
      b.contains x → c.contains x → b = c) := by
  refine ⟨?_, ⟨_, rfl, rfl, rfl⟩, ?_, ?_⟩
  · simp only [tax_brackets, List.chain'_cons, List.chain'_singleton, and_true,
      bracketStep]
    refine ⟨⟨237100, rfl, by norm_num, by norm_num, by norm_num⟩,
      ⟨370500, rfl, by norm_num, by norm_num, by norm_num⟩,
      ⟨512800, rfl, by norm_num, by norm_num, by norm_num⟩,
      ⟨673000, rfl, by norm_num, by norm_num, by norm_num⟩,
      ⟨857900, rfl, by norm_num, by norm_num, by norm_num⟩,
      ⟨1817000, rfl, by norm_num, by norm_num, by norm_num⟩⟩
  · rcases Nat.lt_or_ge n 237101 with h1 | h1
    · exact ⟨⟨1, some 237100, 0.18, 0⟩, by simp [tax_brackets],
        show (1:ℚ) ≤ (n:ℚ) from by exact_mod_cast hn,
        show (n:ℚ) ≤ 237100 from by exact_mod_cast (by omega : n ≤ 237100)⟩
    rcases Nat.lt_or_ge n 370501 with h2 | h2
    · exact ⟨⟨237101, some 370500, 0.26, 42678⟩, by simp [tax_brackets],
        show (237101:ℚ) ≤ (n:ℚ) from by exact_mod_cast h1,
        show (n:ℚ) ≤ 370500 from by exact_mod_cast (by omega : n ≤ 370500)⟩
    rcases Nat.lt_or_ge n 512801 with h3 | h3
    · exact ⟨⟨370501, some 512800, 0.31, 77362⟩, by simp [tax_brackets],
        show (370501:ℚ) ≤ (n:ℚ) from by exact_mod_cast h2,
        show (n:ℚ) ≤ 512800 from by exact_mod_cast (by omega : n ≤ 512800)⟩
    rcases Nat.lt_or_ge n 673001 with h4 | h4
    · exact ⟨⟨512801, some 673000, 0.36, 121475⟩, by simp [tax_brackets],
        show (512801:ℚ) ≤ (n:ℚ) from by exact_mod_cast h3,
        show (n:ℚ) ≤ 673000 from by exact_mod_cast (by omega : n ≤ 673000)⟩
    rcases Nat.lt_or_ge n 857901 with h5 | h5
    · exact ⟨⟨673001, some 857900, 0.39, 179147⟩, by simp [tax_brackets],
        show (673001:ℚ) ≤ (n:ℚ) from by exact_mod_cast h4,
        show (n:ℚ) ≤ 857900 from by exact_mod_cast (by omega : n ≤ 857900)⟩
    rcases Nat.lt_or_ge n 1817001 with h6 | h6
    · exact ⟨⟨857901, some 1817000, 0.41, 251258⟩, by simp [tax_brackets],
        show (857901:ℚ) ≤ (n:ℚ) from by exact_mod_cast h5,
        show (n:ℚ) ≤ 1817000 from by exact_mod_cast (by omega : n ≤ 1817000)⟩
    · exact ⟨⟨1817001, none, 0.45, 644489⟩, by simp [tax_brackets],
        show (1817001:ℚ) ≤ (n:ℚ) from by exact_mod_cast h6, trivial⟩
  · intro x b hb c hc hbx hcx
    simp only [tax_brackets, List.mem_cons, List.not_mem_nil, or_false] at hb hc
    rcases hb with rfl | rfl | rfl | rfl | rfl | rfl | rfl <;>
      rcases hc with rfl | rfl | rfl | rfl | rfl | rfl | rfl <;>
      first
        | rfl
        | (exfalso
           obtain ⟨ba, bb⟩ := contains_bounds hbx
           obtain ⟨ca, cb⟩ := contains_bounds hcx
           linarith)
        | (exfalso
           obtain ⟨ba, bb⟩ := contains_bounds hbx
           have ca := contains_top hcx
           linarith)
        | (exfalso
           have ba := contains_top hbx
           obtain ⟨ca, cb⟩ := contains_bounds hcx
           linarith)

/-- Witness for C8 at the integer income 300000, which bracket 2
contains. -/
theorem bracket_table_invariants_witness :
    ∃ b ∈ tax_brackets, b.contains ((300000 : ℕ) : ℚ) :=
  (bracket_table_invariants 300000 (by norm_num)).2.2.1
